import Mathlib

/-!
Verification of the IntelligentPersonalAgent repository: a shallow
embedding of the agent backend (tool registry, conversation store,
orchestrator state machine) and of the frontend API client and app
shell, with theorems settling the specification's claims.

The backend Python sources (tools, agent service, routes) are not part
of the available source tree; the definitions for them are modelled
from the specification and are marked as such in their doc comments.
The frontend JavaScript (api.js, App.jsx, ChatWindow in part_000) is
present and is embedded directly.
-/

namespace IPA

/-- Causes a tool executor may fail with, per the spec's error taxonomy. -/
inductive ToolErrorCause where
  | UnsupportedCurrency
  | CityNotFound
  | SearchUnavailable
  deriving DecidableEq

/-- A tool that ran but failed: `ToolExecutionError(cause)`. -/
inductive ToolError where
  | execution (cause : ToolErrorCause)
  deriving DecidableEq

/-- Modelled from the spec: backend `tools.py` is absent from the source
tree; `calculate_sum(numbers)` sums a list of numbers, and an empty list
returns 0 (defined, not an error). Numbers are modelled as rationals. -/
def calculate_sum (numbers : List Rat) : Except ToolError Rat :=
  Except.ok (numbers.foldl (· + ·) 0)

/-- Modelled from the spec: the currency set of the fixed static rate
table, restricted to USD, EUR and INR. -/
def supportedCurrencies : List String := ["USD", "EUR", "INR"]

/-- Modelled from the spec: backend `tools.py` is absent; the fixed static
rate table keyed by (source currency, target currency), with one entry for
every ordered pair over the supported set. Rate values are fixture data. -/
def exchangeRates : List ((String × String) × Rat) :=
  [(("USD", "USD"), 1), (("USD", "EUR"), 93/100), (("USD", "INR"), 8312/100),
   (("EUR", "USD"), 108/100), (("EUR", "EUR"), 1), (("EUR", "INR"), 8950/100),
   (("INR", "USD"), 12/1000), (("INR", "EUR"), 11/1000), (("INR", "INR"), 1)]

/-- Table lookup by the two currency keys. -/
def lookupRate (cFrom cTo : String) : List ((String × String) × Rat) → Option Rat
  | [] => none
  | (p, r) :: rest =>
      if p.1 = cFrom ∧ p.2 = cTo then some r else lookupRate cFrom cTo rest

/-- Modelled from the spec: backend `tools.py` is absent;
`convert_currency(amount, from, to)` multiplies the amount by the static
table's rate, and fails `ToolExecutionError(UnsupportedCurrency)` when the
pair is not in the table. -/
def convert_currency (amount : Rat) (cFrom cTo : String) : Except ToolError Rat :=
  match lookupRate cFrom cTo exchangeRates with
  | some r => Except.ok (amount * r)
  | none => Except.error (ToolError.execution ToolErrorCause.UnsupportedCurrency)

/-- The static table's rate for a supported pair, as a closed-form function
of the two currencies (values match `exchangeRates`). -/
def rateFor (cFrom cTo : String) : Rat :=
  if cFrom = "USD" then
    (if cTo = "USD" then 1 else if cTo = "EUR" then 93/100 else 8312/100)
  else if cFrom = "EUR" then
    (if cTo = "USD" then 108/100 else if cTo = "EUR" then 1 else 8950/100)
  else
    (if cTo = "USD" then 12/1000 else if cTo = "EUR" then 11/1000 else 1)

/-- A structured weather reading, as served from the fixture set. -/
structure WeatherReading where
  temperature_c : Int
  condition : String
  humidity : Nat
  deriving DecidableEq

/-- Modelled from the spec: backend `tools.py` is absent; the small static
fixture set of city readings (Bangalore is a member, per the spec's
examples; the other entries are fixture data). -/
def weatherFixtures : List (String × WeatherReading) :=
  [("Bangalore", ⟨28, "Partly cloudy", 65⟩),
   ("Delhi", ⟨35, "Sunny", 40⟩),
   ("Mumbai", ⟨31, "Humid", 80⟩),
   ("New York", ⟨22, "Clear", 55⟩),
   ("London", ⟨18, "Rainy", 70⟩)]

/-- Fixture lookup by city name. -/
def lookupWeather (city : String) : List (String × WeatherReading) → Option WeatherReading
  | [] => none
  | (c, w) :: rest => if c = city then some w else lookupWeather city rest

/-- Modelled from the spec: backend `tools.py` is absent; `get_weather(city)`
returns the fixture reading, and fails `ToolExecutionError(CityNotFound)`
for a city outside the fixture set. -/
def get_weather (city : String) : Except ToolError WeatherReading :=
  match lookupWeather city weatherFixtures with
  | some w => Except.ok w
  | none => Except.error (ToolError.execution ToolErrorCause.CityNotFound)

/-- The cities the fixture set covers. -/
def fixtureCities : List String := weatherFixtures.map Prod.fst

/-- Whether an `Except` computation succeeded. -/
def exceptOk {ε α : Type} : Except ε α → Bool
  | Except.ok _ => true
  | Except.error _ => false

/-- Folding addition from an accumulator equals the accumulator plus the sum. -/
theorem foldl_add_eq_sum (xs : List Rat) (a : Rat) :
    xs.foldl (· + ·) a = a + xs.sum := by
  induction xs generalizing a with
  | nil => simp
  | cons x xs ih => simp [List.foldl_cons, ih, List.sum_cons]; ring

/-- C6: `calculate_sum` returns the arithmetic sum of its argument list;
`calculate_sum [10, 20, 35]` is 65 and `calculate_sum []` is 0, an
ordinary success rather than a failure. -/
theorem C6_calculate_sum_correct :
    (∀ xs : List Rat, calculate_sum xs = Except.ok xs.sum) ∧
    calculate_sum [10, 20, 35] = Except.ok 65 ∧
    calculate_sum [] = Except.ok 0 := by
  refine ⟨fun xs => ?_, ?_, ?_⟩
  · simp [calculate_sum, foldl_add_eq_sum]
  · simp [calculate_sum, foldl_add_eq_sum]; norm_num
  · simp [calculate_sum]

/-- C7: `convert_currency` returns the product of the amount and the static
fixture rate exactly when both currencies are supported, and fails
`ToolExecutionError(UnsupportedCurrency)` whenever either currency lies
outside {USD, EUR, INR}; concretely, 100 USD→INR yields the fixture-rate
product and 100 USD→JPY fails. -/
theorem C7_convert_currency_correct :
    (∀ (a : Rat) (f t : String), f ∈ supportedCurrencies → t ∈ supportedCurrencies →
        convert_currency a f t = Except.ok (a * rateFor f t)) ∧
    (∀ (a : Rat) (f t : String), f ∉ supportedCurrencies ∨ t ∉ supportedCurrencies →
        convert_currency a f t =
          Except.error (ToolError.execution ToolErrorCause.UnsupportedCurrency)) ∧
    convert_currency 100 "USD" "INR" = Except.ok (100 * rateFor "USD" "INR") ∧
    convert_currency 100 "USD" "JPY" =
      Except.error (ToolError.execution ToolErrorCause.UnsupportedCurrency) := by
  refine ⟨?_, ?_, ?_, ?_⟩
  · intro a f t hf ht
    simp only [supportedCurrencies, List.mem_cons, List.mem_singleton,
      List.not_mem_nil, or_false] at hf ht
    rcases hf with rfl | rfl | rfl <;> rcases ht with rfl | rfl | rfl <;>
      simp [convert_currency, lookupRate, exchangeRates, rateFor]
  · intro a f t h
    have hnone : lookupRate f t exchangeRates = none := by
      rcases h with h | h
      · have h1 : ¬("USD" = f) := fun he => h (by simp [supportedCurrencies, he.symm])
        have h2 : ¬("EUR" = f) := fun he => h (by simp [supportedCurrencies, he.symm])
        have h3 : ¬("INR" = f) := fun he => h (by simp [supportedCurrencies, he.symm])
        simp [lookupRate, exchangeRates, h1, h2, h3]
      · have h1 : ¬("USD" = t) := fun he => h (by simp [supportedCurrencies, he.symm])
        have h2 : ¬("EUR" = t) := fun he => h (by simp [supportedCurrencies, he.symm])
        have h3 : ¬("INR" = t) := fun he => h (by simp [supportedCurrencies, he.symm])
        simp [lookupRate, exchangeRates, h1, h2, h3]
    simp [convert_currency, hnone]
  · simp [convert_currency, lookupRate, exchangeRates, rateFor]
  · simp [convert_currency, lookupRate, exchangeRates]

/-- C7 witness: the supported-pair case at 100 USD→INR with both
memberships discharged concretely. -/
theorem C7_convert_currency_witness :
    convert_currency 100 "USD" "INR" = Except.ok (100 * rateFor "USD" "INR") :=
  C7_convert_currency_correct.1 100 "USD" "INR" (by decide) (by decide)

/-- C8: `get_weather` succeeds exactly on the fixture cities; Bangalore
returns its fixture reading and Atlantis fails
`ToolExecutionError(CityNotFound)`. -/
theorem C8_get_weather_correct :
    (∀ c : String, exceptOk (get_weather c) = true ↔ c ∈ fixtureCities) ∧
    get_weather "Bangalore" = Except.ok ⟨28, "Partly cloudy", 65⟩ ∧
    get_weather "Atlantis" =
      Except.error (ToolError.execution ToolErrorCause.CityNotFound) := by
  refine ⟨fun c => ⟨?_, ?_⟩, ?_, ?_⟩
  · intro hok
    by_contra hmem
    have h1 : ¬("Bangalore" = c) := fun he => hmem (by simp [fixtureCities, weatherFixtures, he.symm])
    have h2 : ¬("Delhi" = c) := fun he => hmem (by simp [fixtureCities, weatherFixtures, he.symm])
    have h3 : ¬("Mumbai" = c) := fun he => hmem (by simp [fixtureCities, weatherFixtures, he.symm])
    have h4 : ¬("New York" = c) := fun he => hmem (by simp [fixtureCities, weatherFixtures, he.symm])
    have h5 : ¬("London" = c) := fun he => hmem (by simp [fixtureCities, weatherFixtures, he.symm])
    have hnone : lookupWeather c weatherFixtures = none := by
      simp [lookupWeather, weatherFixtures, h1, h2, h3, h4, h5]
    simp [get_weather, hnone, exceptOk] at hok
  · intro hmem
    simp only [fixtureCities, weatherFixtures, List.map_cons, List.map_nil,
      List.mem_cons, List.not_mem_nil, or_false] at hmem
    rcases hmem with rfl | rfl | rfl | rfl | rfl <;>
      simp [get_weather, lookupWeather, weatherFixtures, exceptOk]
  · simp [get_weather, lookupWeather, weatherFixtures]
  · simp [get_weather, lookupWeather, weatherFixtures]

/-- C8 witness: the membership equivalence applied at Bangalore. -/
theorem C8_get_weather_witness :
    exceptOk (get_weather "Bangalore") = true :=
  (C8_get_weather_correct.1 "Bangalore").mpr (by decide)

/-- A message role: user or agent. -/
inductive Role where
  | user
  | agent
  deriving DecidableEq

/-- A value a tool produces, or a textual failure description fed to the
integration step. -/
inductive ToolValue where
  | num (r : Rat)
  | weather (w : WeatherReading)
  | text (s : String)
  deriving DecidableEq

/-- A conversation message: role, content, and the optional tool trace
fields populated on agent messages that used a tool. -/
structure Message where
  role : Role
  content : String
  tool_used : Option String
  tool_output : Option ToolValue
  thinking : Option String
  deriving DecidableEq

/-- Arguments the engine supplies for a tool call, tagged by shape for
schema validation. -/
inductive ToolArgs where
  | numbers (xs : List Rat)
  | currency (amount : Rat) (cFrom cTo : String)
  | city (name : String)
  | query (q : String)
  | noArgs
  | malformed
  deriving DecidableEq

/-- How a tool invocation can fail before or during execution. -/
inductive ToolFailure where
  | notFound
  | argumentError
  | executionError (cause : ToolErrorCause)
  deriving DecidableEq

/-- Modelled from the spec: the registry's executor dispatch — resolve the
tool name, schema-validate the arguments, run the executor. An unknown
name is `notFound`, a shape mismatch is `argumentError`, and an executor
failure carries its cause. The clock- and network-backed tools
(`get_current_date`, `search_web`) are absent from the source tree and no
claim depends on their output, so they return fixture text. -/
def runTool (name : String) (args : ToolArgs) : Except ToolFailure ToolValue :=
  if name = "calculate_sum" then
    match args with
    | ToolArgs.numbers xs =>
        match calculate_sum xs with
        | Except.ok v => Except.ok (ToolValue.num v)
        | Except.error (ToolError.execution c) => Except.error (ToolFailure.executionError c)
    | _ => Except.error ToolFailure.argumentError
  else if name = "convert_currency" then
    match args with
    | ToolArgs.currency a f t =>
        match convert_currency a f t with
        | Except.ok v => Except.ok (ToolValue.num v)
        | Except.error (ToolError.execution c) => Except.error (ToolFailure.executionError c)
    | _ => Except.error ToolFailure.argumentError
  else if name = "get_current_date" then
    match args with
    | ToolArgs.noArgs => Except.ok (ToolValue.text "current date fixture")
    | _ => Except.error ToolFailure.argumentError
  else if name = "get_weather" then
    match args with
    | ToolArgs.city c =>
        match get_weather c with
        | Except.ok w => Except.ok (ToolValue.weather w)
        | Except.error (ToolError.execution cause) =>
            Except.error (ToolFailure.executionError cause)
    | _ => Except.error ToolFailure.argumentError
  else if name = "search_web" then
    match args with
    | ToolArgs.query _ => Except.ok (ToolValue.text "search results fixture")
    | _ => Except.error ToolFailure.argumentError
  else Except.error ToolFailure.notFound

/-- A textual description of a tool failure, fed to the integration call. -/
def describeFailure : ToolFailure → String
  | ToolFailure.notFound => "ToolNotFoundError"
  | ToolFailure.argumentError => "ToolArgumentError"
  | ToolFailure.executionError ToolErrorCause.UnsupportedCurrency =>
      "ToolExecutionError: UnsupportedCurrency"
  | ToolFailure.executionError ToolErrorCause.CityNotFound =>
      "ToolExecutionError: CityNotFound"
  | ToolFailure.executionError ToolErrorCause.SearchUnavailable =>
      "ToolExecutionError: SearchUnavailable"

/-- The tool's output, or its failure description, as integration input. -/
def outcomeValue : Except ToolFailure ToolValue → ToolValue
  | Except.ok v => v
  | Except.error f => ToolValue.text (describeFailure f)

/-- Whether the tool invocation succeeded (the trace's `success` flag). -/
def outcomeSuccess : Except ToolFailure ToolValue → Bool
  | Except.ok _ => true
  | Except.error _ => false

/-- The engine's first-call decision: a direct final answer, or an intent
to call one tool with arguments and a rationale. -/
inductive EngineDecision where
  | finalText (t : String)
  | toolCall (name : String) (args : ToolArgs) (rationale : String)
  deriving DecidableEq

/-- Outcome of contacting the engine for the decision call. -/
inductive EngineOutcome where
  | ok (d : EngineDecision)
  | timeout
  | unavailable
  deriving DecidableEq

/-- Outcome of contacting the engine for the integration call. -/
inductive IntegrationOutcome where
  | ok (t : String)
  | timeout
  | unavailable
  deriving DecidableEq

/-- The prompt the orchestrator builds: tool catalog, truncated history
snapshot, and the new user turn. -/
structure Prompt where
  catalog : List (String × String)
  history : List Message
  userTurn : String
  deriving DecidableEq

/-- The external reasoning engine as a capability interface: one decision
call, and one integration call taking the tool outcome and success flag. -/
structure Engine where
  decide : Prompt → EngineOutcome
  integrate : Prompt → ToolValue → Bool → IntegrationOutcome

/-- Modelled from the spec: the registry's discovery catalog of
{name, description} pairs, fixed at startup. -/
def toolCatalog : List (String × String) :=
  [("calculate_sum", "Sum a list of numbers"),
   ("convert_currency", "Convert between USD, EUR and INR"),
   ("get_current_date", "Get current date and time"),
   ("get_weather", "Weather for select cities"),
   ("search_web", "Search the web")]

/-- Modelled from the spec: the configured context budget for prompt
truncation (most recent messages kept, oldest dropped first). -/
def contextBudget : Nat := 20

/-- Keep only the most recent `contextBudget` messages. -/
def truncateHistory (h : List Message) : List Message :=
  h.drop (h.length - contextBudget)

/-- Build the engine prompt from the store snapshot and the user turn. -/
def buildPrompt (snapshot : List Message) (userTurn : String) : Prompt :=
  ⟨toolCatalog, truncateHistory snapshot, userTurn⟩

/-- The errors `submit_message` can surface to the caller. -/
inductive AgentError where
  | EmptyMessageError
  | ServiceUnavailableError
  | TimeoutError
  deriving DecidableEq

/-- The shaped per-turn response: `{response, tool_used, tool_output, thinking}`. -/
structure TraceResponse where
  response : String
  tool_used : Option String
  tool_output : Option ToolValue
  thinking : Option String
  deriving DecidableEq

/-- The ephemeral per-turn tool trace entry: {tool, input, output, success}. -/
structure ToolInvocationRecord where
  tool : String
  input : ToolArgs
  output : ToolValue
  success : Bool
  deriving DecidableEq

/-- The orchestrator's terminal state for one turn: the store after the
turn, the tool trace entry if a tool ran to a completed turn, and the
shaped response or surfaced error. -/
structure TurnResult where
  store : List Message
  record : Option ToolInvocationRecord
  result : Except AgentError TraceResponse

/-- Drop leading whitespace characters. -/
def dropLeadingWs : List Char → List Char
  | [] => []
  | c :: cs => if c.isWhitespace then dropLeadingWs cs else c :: cs

/-- Strip whitespace from both ends of a character list. -/
def trimChars (cs : List Char) : List Char :=
  ((dropLeadingWs (dropLeadingWs cs).reverse)).reverse

/-- Whitespace-stripping of the user's input, as the frontend's `trim()`
and the backend's input validation apply it. -/
def trimInput (s : String) : String :=
  String.mk (trimChars s.data)

/-- A user message with empty trace fields. -/
def mkUserMsg (text : String) : Message :=
  ⟨Role.user, text, none, none, none⟩

/-- An agent message carrying the turn's trace fields. -/
def mkAgentMsg (text : String) (tu : Option String) (out : Option ToolValue)
    (th : Option String) : Message :=
  ⟨Role.agent, text, tu, out, th⟩

/-- The prompt a turn on `store` with input `text` is built from. -/
def turnPrompt (store : List Message) (text : String) : Prompt :=
  buildPrompt (store ++ [mkUserMsg (trimInput text)]) (trimInput text)

/-- Modelled from the spec: the orchestrator state machine
RECEIVED → REASONING → {DIRECT_ANSWER | TOOL_SELECTED} →
[TOOL_EXECUTING → TOOL_RESULT_INTEGRATION] → FINALIZED. Empty input is
rejected before any engine call; the user message is appended, the engine
is consulted once; a direct answer finalizes with empty trace fields; a
tool call runs the tool (failure becomes integration input with
`success = false`) and consults the engine a second time; an engine
contact failure on either call aborts the turn, leaving only the user
message appended. -/
def submit_message (eng : Engine) (store : List Message) (text : String) : TurnResult :=
  let trimmed := (trimInput text)
  if trimmed = "" then ⟨store, none, Except.error AgentError.EmptyMessageError⟩
  else
    let store1 := store ++ [mkUserMsg trimmed]
    let prompt := buildPrompt store1 trimmed
    match eng.decide prompt with
    | EngineOutcome.timeout => ⟨store1, none, Except.error AgentError.TimeoutError⟩
    | EngineOutcome.unavailable =>
        ⟨store1, none, Except.error AgentError.ServiceUnavailableError⟩
    | EngineOutcome.ok (EngineDecision.finalText t) =>
        ⟨store1 ++ [mkAgentMsg t none none none], none,
         Except.ok ⟨t, none, none, none⟩⟩
    | EngineOutcome.ok (EngineDecision.toolCall name args rationale) =>
        let res := runTool name args
        let v := outcomeValue res
        let succ := outcomeSuccess res
        match eng.integrate prompt v succ with
        | IntegrationOutcome.timeout => ⟨store1, none, Except.error AgentError.TimeoutError⟩
        | IntegrationOutcome.unavailable =>
            ⟨store1, none, Except.error AgentError.ServiceUnavailableError⟩
        | IntegrationOutcome.ok finalText =>
            ⟨store1 ++ [mkAgentMsg finalText (some name) (some v) (some rationale)],
             some ⟨name, args, v, succ⟩,
             Except.ok ⟨finalText, some name, some v, some rationale⟩⟩

/-- Modelled from the spec: `clear_history` atomically resets the store to
empty and acknowledges; it cannot fail. -/
def clear_history (_store : List Message) : List Message × String :=
  ([], "History cleared")

/-- Whether the turn on this input fails on engine contact: the decision
call times out or is unavailable, or a selected tool's integration call
does. -/
def engineContactFails (eng : Engine) (store : List Message) (text : String) : Bool :=
  match eng.decide (turnPrompt store text) with
  | EngineOutcome.timeout => true
  | EngineOutcome.unavailable => true
  | EngineOutcome.ok (EngineDecision.finalText _) => false
  | EngineOutcome.ok (EngineDecision.toolCall name args _) =>
      match eng.integrate (turnPrompt store text) (outcomeValue (runTool name args))
          (outcomeSuccess (runTool name args)) with
      | IntegrationOutcome.ok _ => false
      | IntegrationOutcome.timeout => true
      | IntegrationOutcome.unavailable => true

/-- An engine whose every contact times out, for concrete instantiation. -/
def failingEngine : Engine :=
  ⟨fun _ => EngineOutcome.timeout, fun _ _ _ => IntegrationOutcome.timeout⟩

/-- An engine that always answers directly with fixed text. -/
def directEngine : Engine :=
  ⟨fun _ => EngineOutcome.ok (EngineDecision.finalText "direct answer"),
   fun _ _ _ => IntegrationOutcome.ok "integrated answer"⟩

/-- An engine that always selects `convert_currency` on the unsupported
JPY target, so the tool invocation fails, then integrates an apology. -/
def toolFailEngine : Engine :=
  ⟨fun _ => EngineOutcome.ok (EngineDecision.toolCall "convert_currency"
      (ToolArgs.currency 100 "USD" "JPY") "convert 100 USD to JPY"),
   fun _ _ _ => IntegrationOutcome.ok "Sorry, JPY is not supported."⟩

/-- C1: on a non-empty input, if engine contact fails outright on either
call, the turn aborts: the store gains only the user's own message (no
agent message), no trace entry is produced, and a distinct timeout or
unavailability error is surfaced. -/
theorem C1_engine_failure_atomicity (eng : Engine) (store : List Message) (text : String)
    (h1 : ¬ (trimInput text) = "")
    (h2 : engineContactFails eng store text = true) :
    ∃ e, (e = AgentError.TimeoutError ∨ e = AgentError.ServiceUnavailableError) ∧
      submit_message eng store text =
        ⟨store ++ [mkUserMsg (trimInput text)], none, Except.error e⟩ := by
  simp only [engineContactFails, turnPrompt] at h2
  simp only [submit_message]
  rw [if_neg h1]
  split
  · exact ⟨AgentError.TimeoutError, Or.inl rfl, rfl⟩
  · exact ⟨AgentError.ServiceUnavailableError, Or.inr rfl, rfl⟩
  · next t heq =>
      simp only [heq] at h2
      exact Bool.noConfusion h2
  · next name args rationale heq =>
      simp only [heq] at h2
      split
      · exact ⟨AgentError.TimeoutError, Or.inl rfl, rfl⟩
      · exact ⟨AgentError.ServiceUnavailableError, Or.inr rfl, rfl⟩
      · next ft heq2 =>
          simp only [heq2] at h2
          exact Bool.noConfusion h2

/-- C1 witness: a concrete turn against an engine whose calls time out. -/
theorem C1_engine_failure_atomicity_witness :
    ∃ e, (e = AgentError.TimeoutError ∨ e = AgentError.ServiceUnavailableError) ∧
      submit_message failingEngine [] "hello" =
        ⟨[] ++ [mkUserMsg (trimInput "hello")], none, Except.error e⟩ :=
  C1_engine_failure_atomicity failingEngine [] "hello" (by decide) (by decide)

/-- C2: when a tool was selected and its invocation failed, but engine
contact succeeds, the turn still completes with a natural-language answer,
the trace entry records `success = false` with the failure description as
output, and the caller sees an ordinary success, not a fault. -/
theorem C2_tool_failure_recovered (eng : Engine) (store : List Message) (text : String)
    (name : String) (args : ToolArgs) (rationale ft : String)
    (h1 : ¬ (trimInput text) = "")
    (h2 : eng.decide (turnPrompt store text) =
      EngineOutcome.ok (EngineDecision.toolCall name args rationale))
    (h3 : outcomeSuccess (runTool name args) = false)
    (h4 : eng.integrate (turnPrompt store text) (outcomeValue (runTool name args)) false =
      IntegrationOutcome.ok ft) :
    (submit_message eng store text).result =
      Except.ok ⟨ft, some name, some (outcomeValue (runTool name args)), some rationale⟩ ∧
    (submit_message eng store text).record =
      some ⟨name, args, outcomeValue (runTool name args), false⟩ := by
  simp only [turnPrompt] at h2 h4
  simp only [submit_message]
  rw [if_neg h1]
  simp only [h2]
  rw [h3]
  simp only [h4]
  exact ⟨trivial, trivial⟩

/-- C2 witness: a concrete turn whose engine selects `convert_currency`
on the unsupported JPY target; the tool fails, yet the turn completes. -/
theorem C2_tool_failure_recovered_witness :
    (submit_message toolFailEngine [] "Convert 100 USD to JPY").result =
      Except.ok ⟨"Sorry, JPY is not supported.", some "convert_currency",
        some (outcomeValue (runTool "convert_currency" (ToolArgs.currency 100 "USD" "JPY"))),
        some "convert 100 USD to JPY"⟩ ∧
    (submit_message toolFailEngine [] "Convert 100 USD to JPY").record =
      some ⟨"convert_currency", ToolArgs.currency 100 "USD" "JPY",
        outcomeValue (runTool "convert_currency" (ToolArgs.currency 100 "USD" "JPY")), false⟩ :=
  C2_tool_failure_recovered toolFailEngine [] "Convert 100 USD to JPY" "convert_currency"
    (ToolArgs.currency 100 "USD" "JPY") "convert 100 USD to JPY" "Sorry, JPY is not supported."
    (by decide) rfl (by decide) rfl

/-- C3: every surfaced failure of `submit_message` is one of
`EmptyMessageError`, `ServiceUnavailableError`, `TimeoutError`; every
success has either all three trace fields null (direct answer) or all
three populated (tool turn); a direct decision yields the null-field
response with the engine's text, and a completed tool turn yields the
populated response. -/
theorem C3_response_shape (eng : Engine) (store : List Message) (text : String) :
    (∀ e, (submit_message eng store text).result = Except.error e →
        e = AgentError.EmptyMessageError ∨ e = AgentError.ServiceUnavailableError ∨
          e = AgentError.TimeoutError) ∧
    (∀ r, (submit_message eng store text).result = Except.ok r →
        ((r.tool_used = none ∧ r.tool_output = none ∧ r.thinking = none) ∨
         (r.tool_used.isSome = true ∧ r.tool_output.isSome = true ∧
          r.thinking.isSome = true))) ∧
    (∀ t, ¬ (trimInput text) = "" →
        eng.decide (turnPrompt store text) = EngineOutcome.ok (EngineDecision.finalText t) →
        (submit_message eng store text).result = Except.ok ⟨t, none, none, none⟩) ∧
    (∀ name args rationale ft, ¬ (trimInput text) = "" →
        eng.decide (turnPrompt store text) =
          EngineOutcome.ok (EngineDecision.toolCall name args rationale) →
        eng.integrate (turnPrompt store text) (outcomeValue (runTool name args))
          (outcomeSuccess (runTool name args)) = IntegrationOutcome.ok ft →
        (submit_message eng store text).result =
          Except.ok ⟨ft, some name, some (outcomeValue (runTool name args)),
            some rationale⟩) := by
  refine ⟨?_, ?_, ?_, ?_⟩
  · intro e _
    cases e with
    | EmptyMessageError => exact Or.inl rfl
    | ServiceUnavailableError => exact Or.inr (Or.inl rfl)
    | TimeoutError => exact Or.inr (Or.inr rfl)
  · intro r hr
    by_cases h : (trimInput text) = ""
    · simp only [submit_message, if_pos h] at hr
      exact absurd hr (by simp)
    · simp only [submit_message, if_neg h] at hr
      split at hr
      · exact absurd hr (by simp)
      · exact absurd hr (by simp)
      · next t heq =>
          simp only [Except.ok.injEq] at hr
          subst hr
          exact Or.inl ⟨rfl, rfl, rfl⟩
      · next name args rationale heq =>
          split at hr
          · exact absurd hr (by simp)
          · exact absurd hr (by simp)
          · next ft heq2 =>
              simp only [Except.ok.injEq] at hr
              subst hr
              exact Or.inr ⟨rfl, rfl, rfl⟩
  · intro t h hd
    simp only [turnPrompt] at hd
    simp only [submit_message]
    rw [if_neg h]
    simp only [hd]
  · intro name args rationale ft h hd hi
    simp only [turnPrompt] at hd hi
    simp only [submit_message]
    rw [if_neg h]
    simp only [hd]
    simp only [hi]

/-- C3 witness: the direct-answer case at a concrete engine and input. -/
theorem C3_response_shape_witness :
    (submit_message directEngine [] "hi").result =
      Except.ok ⟨"direct answer", none, none, none⟩ :=
  (C3_response_shape directEngine [] "hi").2.2.1 "direct answer" (by decide) rfl

/-- C4: empty or whitespace-only input is rejected with
`EmptyMessageError`, the store is untouched (no message of any role is
appended), and the outcome is independent of the engine, i.e. no engine
call influences it. -/
theorem C4_empty_input_rejected (eng eng2 : Engine) (store : List Message) (text : String)
    (h : (trimInput text) = "") :
    submit_message eng store text =
      ⟨store, none, Except.error AgentError.EmptyMessageError⟩ ∧
    submit_message eng store text = submit_message eng2 store text := by
  constructor
  · rw [submit_message]
    simp [h]
  · rw [submit_message, submit_message]
    simp [h]

/-- C4 witness: a whitespace-only input against two different engines. -/
theorem C4_empty_input_rejected_witness :
    submit_message failingEngine [] "   " =
      ⟨[], none, Except.error AgentError.EmptyMessageError⟩ ∧
    submit_message failingEngine [] "   " = submit_message directEngine [] "   " :=
  C4_empty_input_rejected failingEngine directEngine [] "   " (by decide)

/-- C5: `clear_history` always succeeds with its acknowledgement and
resets the store to empty; repeated clears are idempotent; and a
subsequent `submit_message x` builds its prompt from a history containing
only the user message for `x`, which also heads the resulting store. -/
theorem C5_clear_history_idempotent (s : List Message) (x : String) (eng : Engine)
    (hx : ¬ (trimInput x) = "") :
    (clear_history s).1 = [] ∧
    (clear_history (clear_history s).1).1 = (clear_history s).1 ∧
    (clear_history s).2 = "History cleared" ∧
    turnPrompt (clear_history s).1 x = ⟨toolCatalog, [mkUserMsg (trimInput x)], (trimInput x)⟩ ∧
    (submit_message eng (clear_history s).1 x).store.head? = some (mkUserMsg (trimInput x)) := by
  refine ⟨rfl, rfl, rfl, ?_, ?_⟩
  · simp [turnPrompt, buildPrompt, truncateHistory, clear_history, contextBudget]
  · simp only [clear_history, submit_message]
    rw [if_neg hx]
    split
    · simp
    · simp
    · simp
    · split
      · simp
      · simp
      · simp

/-- C5 witness: clearing a one-message store and submitting a concrete
message against the direct-answering engine. -/
theorem C5_clear_history_idempotent_witness :
    (clear_history [mkUserMsg "old"]).1 = [] ∧
    (clear_history (clear_history [mkUserMsg "old"]).1).1 =
      (clear_history [mkUserMsg "old"]).1 ∧
    (clear_history [mkUserMsg "old"]).2 = "History cleared" ∧
    turnPrompt (clear_history [mkUserMsg "old"]).1 "hi" =
      ⟨toolCatalog, [mkUserMsg (trimInput "hi")], trimInput "hi"⟩ ∧
    (submit_message directEngine (clear_history [mkUserMsg "old"]).1 "hi").store.head? =
      some (mkUserMsg (trimInput "hi")) :=
  C5_clear_history_idempotent [mkUserMsg "old"] "hi" directEngine (by decide)

/-- A tool-usage log entry kept by the frontend side panel (App.jsx /
ToolLogPanel.jsx). -/
structure ToolLog where
  tool : String
  input : Option String
  output : Option ToolValue
  success : Bool
  deriving DecidableEq

/-- The frontend application state relevant to clearing: the chat message
list and the tool-log list (App.jsx `messages`, `toolLogs`). -/
structure AppState where
  messages : List Message
  toolLogs : List ToolLog
  deriving DecidableEq

/-- Whether the POST /clear-history request reaches the server and
succeeds, carrying the server's confirmation data on success. -/
inductive ClearOutcome where
  | ok (data : String)
  | netError
  deriving DecidableEq

/-- Embedding of api.js `clearChatHistory`: return the response data, or
throw `Failed to clear chat history` on any request failure. -/
def clearChatHistory : ClearOutcome → Except String String
  | ClearOutcome.ok d => Except.ok d
  | ClearOutcome.netError => Except.error "Failed to clear chat history"

/-- Embedding of App.jsx `handleClearChat`: await `clearChatHistory`, and
only after it succeeds set both `messages` and `toolLogs` to empty; a
thrown error is caught and logged, leaving the state untouched. -/
def handleClearChat (o : ClearOutcome) (s : AppState) : AppState :=
  match clearChatHistory o with
  | Except.ok _ => ⟨[], []⟩
  | Except.error _ => s

/-- C9: the client-side clear is atomic with respect to the server call:
both local lists are reset to empty exactly when the clear-history request
succeeds, and are left unchanged when it throws. -/
theorem C9_clear_chat_atomic (o : ClearOutcome) (s : AppState) :
    (∀ d, clearChatHistory o = Except.ok d → handleClearChat o s = ⟨[], []⟩) ∧
    (∀ e, clearChatHistory o = Except.error e → handleClearChat o s = s) := by
  constructor
  · intro d hd
    simp only [handleClearChat, hd]
  · intro e he
    simp only [handleClearChat, he]

/-- C9 witness: both branches at concrete outcomes and a non-empty state. -/
theorem C9_clear_chat_atomic_witness :
    handleClearChat (ClearOutcome.ok "History cleared")
      ⟨[mkUserMsg "hi"], [⟨"calculate_sum", none, none, true⟩]⟩ = ⟨[], []⟩ ∧
    handleClearChat ClearOutcome.netError
      ⟨[mkUserMsg "hi"], [⟨"calculate_sum", none, none, true⟩]⟩ =
      ⟨[mkUserMsg "hi"], [⟨"calculate_sum", none, none, true⟩]⟩ :=
  ⟨(C9_clear_chat_atomic (ClearOutcome.ok "History cleared")
      ⟨[mkUserMsg "hi"], [⟨"calculate_sum", none, none, true⟩]⟩).1
      "History cleared" rfl,
   (C9_clear_chat_atomic ClearOutcome.netError
      ⟨[mkUserMsg "hi"], [⟨"calculate_sum", none, none, true⟩]⟩).2
      "Failed to clear chat history" rfl⟩

/-- How the axios POST /chat request can end, from the perspective of
api.js `sendChatMessage`: a 2xx response with parsed data, an error
response whose body may carry a `detail` field (absent or empty counts as
falsy), no response at all, or a request-setup failure. -/
inductive HttpOutcome where
  | success (data : TraceResponse)
  | responseError (detail : Option String)
  | requestError
  | setupError
  deriving DecidableEq

/-- JavaScript `a || b` on a string `detail` field: the default wins when
the field is absent or the empty string. -/
def jsStringOr (v : Option String) (dflt : String) : String :=
  match v with
  | some s => if s = "" then dflt else s
  | none => dflt

/-- Embedding of api.js `sendChatMessage`: return the response data on
success; otherwise throw an Error whose message depends on the failure
mode exactly as the catch block selects it. -/
def sendChatMessage : HttpOutcome → Except String TraceResponse
  | HttpOutcome.success d => Except.ok d
  | HttpOutcome.responseError detail => Except.error (jsStringOr detail "Server error occurred")
  | HttpOutcome.requestError =>
      Except.error "Unable to connect to the server. Is the backend running?"
  | HttpOutcome.setupError => Except.error "Failed to send message"

/-- C10: every failed chat request throws (a value is returned only on
success), and the thrown message is determined by the failure mode: the
server's `detail` field, defaulting to `Server error occurred` when it is
absent or falsy; the connection message when no response was received;
and `Failed to send message` for a request-setup failure. -/
theorem C10_send_chat_message_errors :
    (∀ o r, sendChatMessage o = Except.ok r → o = HttpOutcome.success r) ∧
    (∀ d, sendChatMessage (HttpOutcome.responseError d) =
        Except.error (jsStringOr d "Server error occurred")) ∧
    (∀ d, ¬ d = "" → sendChatMessage (HttpOutcome.responseError (some d)) = Except.error d) ∧
    sendChatMessage (HttpOutcome.responseError none) = Except.error "Server error occurred" ∧
    sendChatMessage HttpOutcome.requestError =
      Except.error "Unable to connect to the server. Is the backend running?" ∧
    sendChatMessage HttpOutcome.setupError = Except.error "Failed to send message" := by
  refine ⟨?_, ?_, ?_, rfl, rfl, rfl⟩
  · intro o r hr
    cases o with
    | success d =>
        simp only [sendChatMessage, Except.ok.injEq] at hr
        rw [hr]
    | responseError d => exact absurd hr (by simp [sendChatMessage])
    | requestError => exact absurd hr (by simp [sendChatMessage])
    | setupError => exact absurd hr (by simp [sendChatMessage])
  · intro d
    rfl
  · intro d hd
    simp [sendChatMessage, jsStringOr, hd]

/-- C10 witness: the only-success-returns direction applied at a concrete
successful response, and a non-empty detail propagated verbatim. -/
theorem C10_send_chat_message_errors_witness :
    HttpOutcome.success ⟨"ok", none, none, none⟩ =
      HttpOutcome.success ⟨"ok", none, none, none⟩ ∧
    sendChatMessage (HttpOutcome.responseError (some "Azure OpenAI configuration error")) =
      Except.error "Azure OpenAI configuration error" :=
  ⟨C10_send_chat_message_errors.1 (HttpOutcome.success ⟨"ok", none, none, none⟩)
      ⟨"ok", none, none, none⟩ rfl,
   C10_send_chat_message_errors.2.2.1 "Azure OpenAI configuration error" (by decide)⟩

end IPA
